import Mathlib

/-!
Shallow embedding of the eltakoMS weather-station logger (src/eltakoMS.c).

The embedded core is the frame validator (the sanity-check block, lines
296-350), the frame decoder (lines 355-377), and the windowed aggregation
state machine (lines 279-280 and 394-412) of the endless read loop in main.

Modelling conventions:
  * The read buffer is a total function from byte index to byte value
    (the C buffer is a fixed 150-byte array; indices past the bytes actually
    read hold whatever memory holds, which a total function models), together
    with the number of bytes read, len = s - buf, which counts the 0x03
    terminator when one was read.  Concrete buffers are built from lists with
    bufOfList; index len then reads 0, matching the null byte the loop writes
    at *(s).
  * Bytes are plain Nat values (so the checksum sum adds unsigned byte
    values; signedness of the C char type is implementation defined).
  * C integer division of nonnegative longs is Nat division; the signed
    division in the averaging code is Int.tdiv (C truncates toward zero).
  * The IEEE double pipeline (int)(atof(s)*10) of the decoder is embedded
    exactly via integer arithmetic: atofT10 computes round-to-nearest-even of
    n/10 to 53 bits, multiplies by 10, rounds to 53 bits again, and truncates,
    which is precisely what correctly rounded strtod and one IEEE binary64
    multiplication do on the validated digit-dot-digit field.
  * The averaging expression (int)(acc / count + .5) adds .5 to the already
    truncated integer quotient; the conversions are exact in binary64 for
    every magnitude the accumulator can reach, so cRound captures it exactly.
-/

namespace EltakoMS

/-- Interpret a concrete list of bytes as buffer memory: positions past the
end read as 0 (the read loop null-terminates at the first free position). -/
def bufOfList (l : List Nat) : Nat → Nat := fun i => l.getD i 0

/-- One sanity-check line of the C validator: contributes mask m to the error
word when the violation condition c holds, else nothing. -/
def errBit (c : Prop) [Decidable c] (m : Nat) : Nat := if c then m else 0

/-- isspace as used by atoi when skipping leading whitespace. -/
def isSpaceB (c : Nat) : Bool := c == 32 || (9 ≤ c && c ≤ 13)

/-- Whitespace skip of atoi, fuel-bounded (the C scan is bounded by the
buffer; any fuel past the first non-space byte is unobservable). -/
def skipWs (d : Nat → Nat) : Nat → Nat → Nat
  | 0, pos => pos
  | f + 1, pos => if isSpaceB (d pos) then skipWs d f (pos + 1) else pos

/-- Digit-run accumulation of atoi: consume decimal digits from pos,
accumulating the value, stopping at the first non-digit byte. -/
def atoiLoop (d : Nat → Nat) : Nat → Nat → Nat → Nat
  | 0, _, acc => acc
  | f + 1, pos, acc =>
    if 48 ≤ d pos ∧ d pos ≤ 57 then
      atoiLoop d f (pos + 1) (acc * 10 + (d pos - 48))
    else acc

/-- C atoi starting at byte offset pos of the buffer: skip whitespace, accept
one optional sign, then convert the maximal digit run. -/
def cAtoi (d : Nat → Nat) (pos : Nat) : Int :=
  let p := skipWs d 150 pos
  if d p = 45 then -(atoiLoop d 150 (p + 1) 0 : Int)
  else if d p = 43 then (atoiLoop d 150 (p + 1) 0 : Int)
  else (atoiLoop d 150 p 0 : Int)

/-- for (i=0, sum=0; i<35; i++) sum += *(buf+i); -/
def sum35 (d : Nat → Nat) : Nat := ((List.range 35).map d).sum

/-- The structural sanity checks of lines 298-347, one errBit per C line,
OR-accumulated exactly as the C code accumulates err. -/
def structErr (d : Nat → Nat) (len : Nat) : Nat :=
  errBit (len ≠ 40) 0x0001 |||
  errBit (d 0 ≠ 87) 0x0002 |||
  errBit (d 1 ≠ 43 ∧ d 1 ≠ 45) 0x0004 |||
  errBit (d 2 < 48 ∨ 57 < d 2) 0x0008 |||
  errBit (d 3 < 48 ∨ 57 < d 3) 0x0008 |||
  errBit (d 4 ≠ 46) 0x0008 |||
  errBit (d 5 < 48 ∨ 57 < d 5) 0x0008 |||
  errBit (d 6 < 48 ∨ 57 < d 6) 0x0010 |||
  errBit (d 7 < 48 ∨ 57 < d 7) 0x0010 |||
  errBit (d 8 < 48 ∨ 57 < d 8) 0x0020 |||
  errBit (d 9 < 48 ∨ 57 < d 9) 0x0020 |||
  errBit (d 10 < 48 ∨ 57 < d 10) 0x0040 |||
  errBit (d 11 < 48 ∨ 57 < d 11) 0x0040 |||
  errBit (d 12 ≠ 74 ∧ d 12 ≠ 78) 0x0080 |||
  errBit (d 13 < 48 ∨ 57 < d 13) 0x0100 |||
  errBit (d 14 < 48 ∨ 57 < d 14) 0x0100 |||
  errBit (d 15 < 48 ∨ 57 < d 15) 0x0100 |||
  errBit (d 16 < 48 ∨ 57 < d 16) 0x0200 |||
  errBit (d 17 < 48 ∨ 57 < d 17) 0x0200 |||
  errBit (d 18 ≠ 46) 0x0200 |||
  errBit (d 19 < 48 ∨ 57 < d 19) 0x0200 |||
  errBit (d 20 ≠ 74 ∧ d 20 ≠ 78) 0x0400 |||
  errBit (d 21 ≠ 63) 0x0800 |||
  errBit (d 22 ≠ 49) 0x0800 |||
  errBit (d 23 ≠ 53) 0x0800 |||
  errBit (d 24 ≠ 49) 0x0800 |||
  errBit (d 25 ≠ 53) 0x0800 |||
  errBit (d 26 ≠ 49) 0x0800 |||
  errBit (d 27 ≠ 53) 0x0800 |||
  errBit (d 28 ≠ 49) 0x0800 |||
  errBit (d 29 ≠ 53) 0x0800 |||
  errBit (d 30 ≠ 49) 0x0800 |||
  errBit (d 31 ≠ 53) 0x0800 |||
  errBit (d 32 ≠ 49) 0x0800 |||
  errBit (d 33 ≠ 53) 0x0800 |||
  errBit (d 34 ≠ 63) 0x0800 |||
  errBit (d 35 < 48 ∨ 57 < d 35) 0x1000 |||
  errBit (d 36 < 48 ∨ 57 < d 36) 0x1000 |||
  errBit (d 37 < 48 ∨ 57 < d 37) 0x1000 |||
  errBit (d 38 < 48 ∨ 57 < d 38) 0x1000

/-- The full validator: structural checks, then line 350,
if ((err & 0x1000) || sum != atoi(buf+35)) err |= 0x2000. -/
def validate (d : Nat → Nat) (len : Nat) : Nat :=
  let e := structErr d len
  if e &&& 0x1000 ≠ 0 ∨ (sum35 d : Int) ≠ cAtoi d 35 then e ||| 0x2000 else e

/-- Value of the four checksum digit bytes 35-38 read as one decimal number
(the quantity the spec calls the decimal integer parsed from bytes 35-38). -/
def val4 (d : Nat → Nat) : Int :=
  1000 * ((d 35 : Int) - 48) + 100 * ((d 36 : Int) - 48) +
    10 * ((d 37 : Int) - 48) + ((d 38 : Int) - 48)

/-- A decimal digit byte, the condition the validator checks on every
numeric position. -/
def digitByte (c : Nat) : Prop := 48 ≤ c ∧ c ≤ 57

instance (c : Nat) : Decidable (digitByte c) := by
  unfold digitByte
  infer_instance

/-- The well-formed example frame of the C header comment,
W+07.6016300N99901.2N?151515151515?1889, then the 0x03 terminator;
its 35-byte prefix sums to 1889, matching the checksum field. -/
def exFrame : List Nat :=
  [87, 43, 48, 55, 46, 54, 48, 49, 54, 51, 48, 48, 78, 57, 57, 57, 48, 49,
   46, 50, 78, 63, 49, 53, 49, 53, 49, 53, 49, 53, 49, 53, 49, 53, 63,
   49, 56, 56, 57, 3]

/-- The same frame with byte 0 changed from W (87) to X (88). -/
def exFrameX : List Nat := 88 :: exFrame.tail

/-- The example frame with rain sentinel J at byte 20 and the checksum
field adjusted to the new byte sum 1885. -/
def exFrameJ : List Nat :=
  [87, 43, 48, 55, 46, 54, 48, 49, 54, 51, 48, 48, 78, 57, 57, 57, 48, 49,
   46, 50, 74, 63, 49, 53, 49, 53, 49, 53, 49, 53, 49, 53, 49, 53, 63,
   49, 56, 56, 53, 3]

/-- A 41-byte read whose bytes 0-33 are the digit 6 (54) and byte 34 the
digit 5 (53), so the 35-byte prefix sums to 1889; bytes 35-39 are the five
digits 18895 and byte 40 is the terminator. -/
def exFrameLong : List Nat :=
  [54, 54, 54, 54, 54, 54, 54, 54, 54, 54, 54, 54, 54, 54, 54, 54, 54,
   54, 54, 54, 54, 54, 54, 54, 54, 54, 54, 54, 54, 54, 54, 54, 54, 54, 53,
   49, 56, 56, 57, 53, 3]

/-- Round the rational a / b (b positive) to the nearest integer, ties to
even: the rounding IEEE 754 applies to every inexact operation. -/
def rhe (a b : Nat) : Nat :=
  let q := a / b
  let r := a % b
  if 2 * r < b then q else if b < 2 * r then q + 1
  else if q % 2 = 0 then q else q + 1

/-- Normalize: double v until it reaches 10 * 2^52, returning the scaled
value and the number k of doublings, so that for input n the result v
satisfies v = n * 2^k and 10 * 2^52 <= v < 10 * 2^53 (for 1 <= n < 2^53). -/
def scaleUp : Nat → Nat → Nat → Nat × Nat
  | 0, v, k => (v, k)
  | f + 1, v, k =>
    if 45035996273704960 ≤ v then (v, k) else scaleUp f (2 * v) (k + 1)

/-- Exact value of the C expression (int)(atof(s)*10) when s denotes the
nonnegative decimal n/10 (the validated digit fields DD.D):
round n/10 to the nearest binary64 (mantissa m, value m * 2^-k), multiply by
10 and round the product to 53 bits again, then truncate toward zero. -/
def atofT10 (n : Nat) : Nat :=
  if n = 0 then 0
  else
    let vk := scaleUp 60 n 0
    let m := rhe vk.1 10
    let p := m * 10
    if p < 72057594037927936 then rhe p 8 >>> (vk.2 - 3)
    else rhe p 16 >>> (vk.2 - 4)

/-- Numeric value of a decimal digit byte. -/
def dig (c : Nat) : Nat := c - 48

/-- One decoded sample, fields exactly as computed by lines 355-377:
temperature and wind in integer tenths, rain and obscurity as the
human-facing character codes R/r (82/114) and O/o (79/111). -/
structure Measurement where
  temp : Int
  sunS : Nat
  sunW : Nat
  sunE : Nat
  obsc : Nat
  dawn : Nat
  wind : Nat
  rain : Nat
  deriving DecidableEq

/-- The decoder of lines 355-377.  It presupposes a frame that passed
validation (spec 4.2), so each numeric field is the fixed-width digit group
the validator checked: atoi of the null-carved subfields is plain digit
arithmetic, and (int)(atof(buf+16)*10) / (int)(atof(buf+1)*10) are atofT10
of the field value with the sign byte applied. -/
def decode (d : Nat → Nat) : Measurement :=
  let rain := if d 20 = 74 then 82 else 114
  let wind := atofT10 (100 * dig (d 16) + 10 * dig (d 17) + dig (d 19))
  let dawn := 100 * dig (d 13) + 10 * dig (d 14) + dig (d 15)
  let obsc := if d 12 = 74 then 79 else 111
  let sunE := 10 * dig (d 10) + dig (d 11)
  let sunW := 10 * dig (d 8) + dig (d 9)
  let sunS := 10 * dig (d 6) + dig (d 7)
  let temp : Int :=
    (if d 1 = 45 then (-1 : Int) else 1) *
      (atofT10 (100 * dig (d 2) + 10 * dig (d 3) + dig (d 5)) : Int)
  { temp := temp, sunS := sunS, sunW := sunW, sunE := sunE, obsc := obsc,
    dawn := dawn, wind := wind, rain := rain }

/-- The accumulator variables of main, lines 145-148: sample count, running
sums, running character/velocity maxima, and the previous sample phase
oldEpoch (a long, sentinel -1 before the first sample). -/
structure AccState where
  count : Nat
  accTemp : Int
  accDawn : Int
  accSunE : Int
  accSunW : Int
  accSunS : Int
  maxWind : Nat
  maxRain : Nat
  maxObsc : Nat
  oldEpoch : Int
  deriving DecidableEq

/-- Line 279-280: count = maxRain = maxWind = accDawn = maxObsc = accSunE =
accSunW = accSunS = accTemp = 0; oldEpoch = -1. -/
def initState : AccState :=
  { count := 0, accTemp := 0, accDawn := 0, accSunE := 0, accSunW := 0,
    accSunS := 0, maxWind := 0, maxRain := 0, maxObsc := 0, oldEpoch := -1 }

/-- Folding one decoded sample into the accumulator, lines 355-377:
increment count, add the continuous quantities, keep the larger of each
max-tracked quantity (the C > comparison on the stored values). -/
def foldMeas (s : AccState) (m : Measurement) : AccState :=
  { s with
    count := s.count + 1
    accTemp := s.accTemp + m.temp
    accDawn := s.accDawn + (m.dawn : Int)
    accSunE := s.accSunE + (m.sunE : Int)
    accSunW := s.accSunW + (m.sunW : Int)
    accSunS := s.accSunS + (m.sunS : Int)
    maxWind := if s.maxWind < m.wind then m.wind else s.maxWind
    maxRain := if s.maxRain < m.rain then m.rain else s.maxRain
    maxObsc := if s.maxObsc < m.obsc then m.obsc else s.maxObsc }

/-- Exact value of the C averaging expression (int)(acc / count + .5),
lines 397-401: acc / count is integer division truncating toward zero;
adding .5 and truncating the (exact) binary64 sum toward zero returns the
quotient unchanged when it is nonnegative and bumps it by one when it is
negative. -/
def cRound (a : Int) (c : Nat) : Int :=
  let q := a.tdiv (c : Int)
  if q < 0 then q + 1 else q

/-- The record emitted at a window close, lines 402-409: the five averaged
quantities and the three max-tracked ones (the formatted timestamp is sink
I/O, outside the embedded core). -/
structure AveragedRecord where
  avgTemp : Int
  avgSunS : Int
  avgSunW : Int
  avgSunE : Int
  avgDawn : Int
  maxObsc : Nat
  maxWind : Nat
  maxRain : Nat
  deriving DecidableEq

/-- The averages computed at lines 397-401 from the accumulator, plus the
maxima carried over unchanged. -/
def mkRecord (s : AccState) : AveragedRecord :=
  { avgTemp := cRound s.accTemp s.count
    avgSunS := cRound s.accSunS s.count
    avgSunW := cRound s.accSunW s.count
    avgSunE := cRound s.accSunE s.count
    avgDawn := cRound s.accDawn s.count
    maxObsc := s.maxObsc
    maxWind := s.maxWind
    maxRain := s.maxRain }

/-- Line 410: count = maxRain = maxWind = accDawn = maxObsc = accSunE =
accSunW = accSunS = accTemp = 0 (oldEpoch is not touched here). -/
def resetAgg (s : AccState) : AccState :=
  { s with
    count := 0
    accTemp := 0
    accDawn := 0
    accSunE := 0
    accSunW := 0
    accSunS := 0
    maxWind := 0
    maxRain := 0
    maxObsc := 0 }

/-- The window accumulator step for one accepted sample (spec 4.3 accept):
fold the sample (lines 355-377), close the window when the new phase
ltime % interval has wrapped below the stored oldEpoch (line 394), emitting
the averaged record and resetting the aggregates (lines 397-410), and in
every case store the new phase (line 412). -/
def accept (s : AccState) (m : Measurement) (now : Nat) (interval : Nat) :
    AccState × Option AveragedRecord :=
  let s1 := foldMeas s m
  let phase : Int := (now % interval : Nat)
  if phase < s.oldEpoch then
    ({ resetAgg s1 with oldEpoch := phase }, some (mkRecord s1))
  else
    ({ s1 with oldEpoch := phase }, none)

/-- Observable outcome of one loop iteration on one raw frame: the new
accumulator state, the snapshot written per accepted frame (line 379-391),
the averaged record emitted on a window close, and the diagnostic (error
mask and raw bytes) reported for a rejected frame (line 414). -/
structure StepOut where
  state : AccState
  snapshot : Option Measurement
  record : Option AveragedRecord
  diag : Option (Nat × List Nat)
  deriving DecidableEq

/-- One iteration of the read loop on a frame already read into the buffer:
validate; on mask 0 decode, write the snapshot and run the accumulator;
otherwise report the mask with the raw bytes and touch nothing. -/
def processFrame (s : AccState) (d : Nat → Nat) (len : Nat)
    (now : Nat) (interval : Nat) : StepOut :=
  let err := validate d len
  if err = 0 then
    let m := decode d
    let sr := accept s m now interval
    { state := sr.1, snapshot := some m, record := sr.2, diag := none }
  else
    { state := s, snapshot := none, record := none,
      diag := some (err, (List.range len).map d) }

/-- Emission trace of a sample sequence: run accept over the given sample
times and record, per sample, whether a window close fired. -/
def runPhases (times : List Nat) (m : Measurement) (interval : Nat) :
    List Bool :=
  (times.foldl
    (fun p t =>
      let sr := accept p.1 m t interval
      (sr.1, p.2 ++ [sr.2.isSome]))
    (((initState, []) : AccState × List Bool))).2

/-- A fixed sample used for concrete accumulator traces (the decoded
example frame). -/
def mTest : Measurement := decode (bufOfList exFrame)

/-- The 39 payload bytes of the example frame, without the terminator. -/
def exPayload : List Nat := exFrame.dropLast

/-- The example frame with obscurity sentinel J at byte 12 and the checksum
field adjusted to the new byte sum 1885. -/
def exFrameO : List Nat := (exFrame.set 12 74).set 38 53

/-- The example frame with the letter A (65) in place of the first checksum
digit, violating the four-digit checksum rule. -/
def exFrameBadCk : List Nat := exFrame.set 35 65

/-- A sample with dawn 2 and all other quantities at rest. -/
def mDawn2 : Measurement :=
  { temp := 0, sunS := 0, sunW := 0, sunE := 0, obsc := 111, dawn := 2,
    wind := 0, rain := 114 }

/-- A sample with dawn 3 and all other quantities at rest. -/
def mDawn3 : Measurement :=
  { temp := 0, sunS := 0, sunW := 0, sunE := 0, obsc := 111, dawn := 3,
    wind := 0, rain := 114 }

/-- Modelled from the spec: round(sum / count) with round-half-up on the
quotient, the averaging rule the spec states (floor of sum/count + 1/2). -/
def specRoundHalfUp (sum : Int) (count : Nat) : Int :=
  Int.ediv (2 * sum + count) (2 * count)

/-- An accumulator state one sample into a window, with stored phase 9:
a sample at a time of phase below 9 closes the window. -/
def sClose : AccState :=
  { count := 1, accTemp := 76, accDawn := 999, accSunE := 0, accSunW := 63,
    accSunS := 1, maxWind := 12, maxRain := 114, maxObsc := 111, oldEpoch := 9 }

/- The C expression (int)(atof(s)*10) reproduces n exactly for every field
value n/10 the validator admits: correctly rounding n/10 to binary64,
multiplying by 10 in binary64 and truncating returns n for all n < 1000. -/
set_option maxRecDepth 10000 in
theorem atofT10_exact : ∀ n : Nat, n < 1000 → atofT10 n = n := by decide

theorem errBit_testBit (c : Prop) [Decidable c] (m k : Nat) :
    (errBit c m).testBit k = (decide c && m.testBit k) := by
  unfold errBit
  split
  · next h => simp [h]
  · next h => simp [h, Nat.zero_testBit]

theorem tb1_3 : Nat.testBit 1 3 = false := by decide

theorem tb2_3 : Nat.testBit 2 3 = false := by decide

theorem tb4_3 : Nat.testBit 4 3 = false := by decide

theorem tb8_3 : Nat.testBit 8 3 = true := by decide

theorem tb16_3 : Nat.testBit 16 3 = false := by decide

theorem tb32_3 : Nat.testBit 32 3 = false := by decide

theorem tb64_3 : Nat.testBit 64 3 = false := by decide

theorem tb128_3 : Nat.testBit 128 3 = false := by decide

theorem tb256_3 : Nat.testBit 256 3 = false := by decide

theorem tb512_3 : Nat.testBit 512 3 = false := by decide

theorem tb1024_3 : Nat.testBit 1024 3 = false := by decide

theorem tb2048_3 : Nat.testBit 2048 3 = false := by decide

theorem tb4096_3 : Nat.testBit 4096 3 = false := by decide

theorem tb1_9 : Nat.testBit 1 9 = false := by decide

theorem tb2_9 : Nat.testBit 2 9 = false := by decide

theorem tb4_9 : Nat.testBit 4 9 = false := by decide

theorem tb8_9 : Nat.testBit 8 9 = false := by decide

theorem tb16_9 : Nat.testBit 16 9 = false := by decide

theorem tb32_9 : Nat.testBit 32 9 = false := by decide

theorem tb64_9 : Nat.testBit 64 9 = false := by decide

theorem tb128_9 : Nat.testBit 128 9 = false := by decide

theorem tb256_9 : Nat.testBit 256 9 = false := by decide

theorem tb512_9 : Nat.testBit 512 9 = true := by decide

theorem tb1024_9 : Nat.testBit 1024 9 = false := by decide

theorem tb2048_9 : Nat.testBit 2048 9 = false := by decide

theorem tb4096_9 : Nat.testBit 4096 9 = false := by decide

theorem tb1_12 : Nat.testBit 1 12 = false := by decide

theorem tb2_12 : Nat.testBit 2 12 = false := by decide

theorem tb4_12 : Nat.testBit 4 12 = false := by decide

theorem tb8_12 : Nat.testBit 8 12 = false := by decide

theorem tb16_12 : Nat.testBit 16 12 = false := by decide

theorem tb32_12 : Nat.testBit 32 12 = false := by decide

theorem tb64_12 : Nat.testBit 64 12 = false := by decide

theorem tb128_12 : Nat.testBit 128 12 = false := by decide

theorem tb256_12 : Nat.testBit 256 12 = false := by decide

theorem tb512_12 : Nat.testBit 512 12 = false := by decide

theorem tb1024_12 : Nat.testBit 1024 12 = false := by decide

theorem tb2048_12 : Nat.testBit 2048 12 = false := by decide

theorem tb4096_12 : Nat.testBit 4096 12 = true := by decide

theorem tb1_13 : Nat.testBit 1 13 = false := by decide

theorem tb2_13 : Nat.testBit 2 13 = false := by decide

theorem tb4_13 : Nat.testBit 4 13 = false := by decide

theorem tb8_13 : Nat.testBit 8 13 = false := by decide

theorem tb16_13 : Nat.testBit 16 13 = false := by decide

theorem tb32_13 : Nat.testBit 32 13 = false := by decide

theorem tb64_13 : Nat.testBit 64 13 = false := by decide

theorem tb128_13 : Nat.testBit 128 13 = false := by decide

theorem tb256_13 : Nat.testBit 256 13 = false := by decide

theorem tb512_13 : Nat.testBit 512 13 = false := by decide

theorem tb1024_13 : Nat.testBit 1024 13 = false := by decide

theorem tb2048_13 : Nat.testBit 2048 13 = false := by decide

theorem tb4096_13 : Nat.testBit 4096 13 = false := by decide

theorem tb8192_13 : Nat.testBit 8192 13 = true := by decide

theorem tb8192_0 : Nat.testBit 8192 0 = false := by decide

theorem structErr_testBit_zero (d : Nat → Nat) (len : Nat) :
    (structErr d len).testBit 0 = decide (len ≠ 40) := by
  simp only [structErr, Nat.testBit_lor, errBit_testBit]
  simp

theorem structErr_testBit_three (d : Nat → Nat) (len : Nat) :
    (structErr d len).testBit 3 = true ↔
      ¬ digitByte (d 2) ∨ ¬ digitByte (d 3) ∨ d 4 ≠ 46 ∨ ¬ digitByte (d 5) := by
  simp only [structErr, Nat.testBit_lor, errBit_testBit]
  simp [digitByte, tb1_3, tb2_3, tb4_3, tb8_3, tb16_3, tb32_3, tb64_3, tb128_3, tb256_3, tb512_3, tb1024_3, tb2048_3, tb4096_3]
  omega

theorem structErr_testBit_nine (d : Nat → Nat) (len : Nat) :
    (structErr d len).testBit 9 = true ↔
      ¬ digitByte (d 16) ∨ ¬ digitByte (d 17) ∨ d 18 ≠ 46 ∨ ¬ digitByte (d 19) := by
  simp only [structErr, Nat.testBit_lor, errBit_testBit]
  simp [digitByte, tb1_9, tb2_9, tb4_9, tb8_9, tb16_9, tb32_9, tb64_9, tb128_9, tb256_9, tb512_9, tb1024_9, tb2048_9, tb4096_9]
  omega

theorem structErr_testBit_twelve (d : Nat → Nat) (len : Nat) :
    (structErr d len).testBit 12 = true ↔
      ¬ digitByte (d 35) ∨ ¬ digitByte (d 36) ∨
        ¬ digitByte (d 37) ∨ ¬ digitByte (d 38) := by
  simp only [structErr, Nat.testBit_lor, errBit_testBit]
  simp [digitByte, tb1_12, tb2_12, tb4_12, tb8_12, tb16_12, tb32_12, tb64_12, tb128_12, tb256_12, tb512_12, tb1024_12, tb2048_12, tb4096_12]
  omega

theorem structErr_testBit_thirteen (d : Nat → Nat) (len : Nat) :
    (structErr d len).testBit 13 = false := by
  simp only [structErr, Nat.testBit_lor, errBit_testBit]
  simp [tb1_13, tb2_13, tb4_13, tb8_13, tb16_13, tb32_13, tb64_13, tb128_13, tb256_13, tb512_13, tb1024_13, tb2048_13, tb4096_13]

theorem and_four096_ne_zero (n : Nat) : n &&& 4096 ≠ 0 ↔ n.testBit 12 = true := by
  have h : (4096 : Nat) = 2 ^ 12 := by norm_num
  rw [h, Nat.and_two_pow]
  cases hb : n.testBit 12 <;> simp

theorem validate_testBit_zero (d : Nat → Nat) (len : Nat) :
    (validate d len).testBit 0 = decide (len ≠ 40) := by
  simp only [validate]
  split
  · simp only [Nat.testBit_lor, structErr_testBit_zero, tb8192_0, Bool.or_false]
  · exact structErr_testBit_zero d len

theorem validate_zero_structErr (d : Nat → Nat) (len : Nat)
    (h : validate d len = 0) : structErr d len = 0 := by
  simp only [validate] at h
  split at h
  · have h13 := congrArg (fun n => Nat.testBit n 13) h
    simp [Nat.testBit_lor, Nat.zero_testBit, tb8192_13] at h13
  · exact h

theorem atoiLoop_stop (d : Nat → Nat) (f pos acc : Nat)
    (h : ¬(48 ≤ d pos ∧ d pos ≤ 57)) : atoiLoop d f pos acc = acc := by
  cases f <;> simp [atoiLoop, h]

theorem atoiLoop_step (d : Nat → Nat) (f pos acc : Nat)
    (h : 48 ≤ d pos ∧ d pos ≤ 57) :
    atoiLoop d (f + 1) pos acc =
      atoiLoop d f (pos + 1) (acc * 10 + (d pos - 48)) := by
  simp [atoiLoop, h]

theorem skipWs_stop (d : Nat → Nat) (f pos : Nat)
    (h : isSpaceB (d pos) = false) : skipWs d f pos = pos := by
  cases f <;> simp [skipWs, h]

/-- On a buffer whose bytes 35-38 are digits and whose byte 39 is not,
atoi(buf+35) converts exactly the four checksum digits. -/
theorem cAtoi_four_digits (d : Nat → Nat)
    (h35 : digitByte (d 35)) (h36 : digitByte (d 36))
    (h37 : digitByte (d 37)) (h38 : digitByte (d 38))
    (h39 : ¬ digitByte (d 39)) : cAtoi d 35 = val4 d := by
  obtain ⟨l35, u35⟩ := h35
  have hsp : isSpaceB (d 35) = false := by
    simp only [isSpaceB, Bool.or_eq_false_iff, beq_eq_false_iff_ne,
      Bool.and_eq_false_iff, decide_eq_false_iff_not]
    omega
  have hm : d 35 ≠ 45 := by omega
  have hp : d 35 ≠ 43 := by omega
  simp only [cAtoi, skipWs_stop d 150 35 hsp, if_neg hm, if_neg hp]
  have e1 : atoiLoop d 150 35 0 = atoiLoop d 149 36 (0 * 10 + (d 35 - 48)) :=
    atoiLoop_step d 149 35 0 ⟨l35, u35⟩
  have e2 : atoiLoop d 149 36 (0 * 10 + (d 35 - 48)) =
      atoiLoop d 148 37 ((0 * 10 + (d 35 - 48)) * 10 + (d 36 - 48)) :=
    atoiLoop_step d 148 36 _ h36
  have e3 : atoiLoop d 148 37 ((0 * 10 + (d 35 - 48)) * 10 + (d 36 - 48)) =
      atoiLoop d 147 38
        (((0 * 10 + (d 35 - 48)) * 10 + (d 36 - 48)) * 10 + (d 37 - 48)) :=
    atoiLoop_step d 147 37 _ h37
  have e4 : atoiLoop d 147 38
        (((0 * 10 + (d 35 - 48)) * 10 + (d 36 - 48)) * 10 + (d 37 - 48)) =
      atoiLoop d 146 39
        ((((0 * 10 + (d 35 - 48)) * 10 + (d 36 - 48)) * 10 + (d 37 - 48)) * 10 +
          (d 38 - 48)) :=
    atoiLoop_step d 146 38 _ h38
  have e5 : atoiLoop d 146 39
        ((((0 * 10 + (d 35 - 48)) * 10 + (d 36 - 48)) * 10 + (d 37 - 48)) * 10 +
          (d 38 - 48)) =
      (((0 * 10 + (d 35 - 48)) * 10 + (d 36 - 48)) * 10 + (d 37 - 48)) * 10 +
          (d 38 - 48) :=
    atoiLoop_stop d 146 39 _ (by simpa [digitByte] using h39)
  rw [e1, e2, e3, e4, e5]
  obtain ⟨l36, u36⟩ := h36
  obtain ⟨l37, u37⟩ := h37
  obtain ⟨l38, u38⟩ := h38
  unfold val4
  omega

/-- Claim C1 (code bug): the claim says every emitted average is
round(sum / count) with round-half-up, so sum 5 over 2 samples should give 3;
the C expression (int)(acc / count + .5) divides in integer arithmetic first,
so the window whose dawn values are 2 and 3 is emitted with average 2, while
the stated half-up rounding of 5/2 is 3. -/
theorem avg_uses_integer_division_not_half_up :
    Option.map AveragedRecord.avgDawn
        (accept (accept initState mDawn2 8 10).1 mDawn3 12 10).2 = some 2 ∧
    cRound 5 2 = 2 ∧
    specRoundHalfUp 5 2 = 3 := by decide

/-- Claim C2 (code bug): the claim says the emitted rain / obscurity
character is uppercase iff some sample in the window had the event active;
because lowercase letters have larger codes, the char max latches lowercase:
a window whose first sample is raining (decodes to R, 82) followed by a dry
sample is emitted with maxRain r (114), and likewise an obscure sample
(O, 79) followed by a bright one is emitted with maxObsc o (111). -/
theorem window_rain_obsc_latch_lowercase :
    (decode (bufOfList exFrameJ)).rain = 82 ∧
    Option.map AveragedRecord.maxRain
        (accept (accept initState (decode (bufOfList exFrameJ)) 8 10).1
          (decode (bufOfList exFrame)) 12 10).2 = some 114 ∧
    (decode (bufOfList exFrameO)).obsc = 79 ∧
    Option.map AveragedRecord.maxObsc
        (accept (accept initState (decode (bufOfList exFrameO)) 8 10).1
          (decode (bufOfList exFrame)) 12 10).2 = some 111 ∧
    (114 : Nat) ≠ 82 ∧ (111 : Nat) ≠ 79 := by decide

/-- Claim C3 (confirmed): accept emits a record exactly when the new phase
now mod interval is strictly below the stored previous phase; the initial
sentinel -1 makes a close impossible on the very first sample; and the
sample phases 5, 8, 2, 9, 1 at interval 10 close exactly at the
8 to 2 and 9 to 1 transitions. -/
theorem accept_closes_iff_phase_wraps :
    (∀ (s : AccState) (m : Measurement) (now interval : Nat),
        (accept s m now interval).2.isSome = true ↔
          ((now % interval : Nat) : Int) < s.oldEpoch) ∧
    (∀ (m : Measurement) (now interval : Nat),
        (accept initState m now interval).2 = none) ∧
    runPhases [5, 8, 12, 19, 21] mTest 10 =
      [false, false, true, false, true] := by
  refine ⟨?_, ?_, by decide⟩
  · intro s m now interval
    simp only [accept]
    split
    · next h => simpa using h
    · next h => simpa using h
  · intro m now interval
    simp only [accept, initState]
    split
    · next h => exfalso; omega
    · rfl

/-- Claim C4 (corrected): changing byte 0 of the well-formed example frame
from W to X sets not only the marker bit 0x0002 but also the checksum bit
0x2000, because the changed byte raises the 35-byte sum to 1890 while the
stored checksum stays 1889; the claim that the mask holds only the marker
bit is refuted at that concrete frame. -/
theorem marker_change_also_breaks_checksum :
    validate (bufOfList exFrameX) 40 = 0x2002 ∧
    (0x2002 : Nat) ≠ 0x0002 := by decide

/-- Claim C4 (amended): the X frame yields exactly the marker and checksum
bits, and the frame is dropped with no measurement, no snapshot, no record,
and the accumulator untouched. -/
theorem x_frame_mask_marker_and_checksum (s : AccState) (now interval : Nat) :
    validate (bufOfList exFrameX) 40 = 0x2002 ∧
    processFrame s (bufOfList exFrameX) 40 now interval =
      { state := s, snapshot := none, record := none,
        diag := some (0x2002, (List.range 40).map (bufOfList exFrameX)) } := by
  have hv : validate (bufOfList exFrameX) 40 = 0x2002 := by decide
  refine ⟨hv, ?_⟩
  simp [processFrame, hv]

/-- Claim C5 (counterexample): the example frame has 39 payload bytes plus
the terminator; its length excluding the terminator is not 40, yet the
length bit is clear, refuting the claim that the bit is set iff the length
excluding the terminator differs from 40. -/
theorem length_bit_clear_on_39_byte_payload :
    ¬(((validate (bufOfList (exPayload ++ [3]))
          (exPayload.length + 1)).testBit 0 = true) ↔
        exPayload.length ≠ 40) := by decide

/-- Claim C5 (amended): the length bit is set iff the byte count including
the terminator differs from 40, i.e. iff the payload excluding the
terminator is not exactly 39 bytes. -/
theorem length_bit_iff_payload_len_ne_39 (payload : List Nat) :
    (validate (bufOfList (payload ++ [3]))
        (payload.length + 1)).testBit 0 = true ↔
      payload.length ≠ 39 := by
  rw [validate_testBit_zero]
  simp only [ne_eq, decide_not, Bool.not_eq_eq_eq_not, Bool.not_true,
    decide_eq_false_iff_not]
  omega

/-- Claim C6 (counterexample): a 41-byte read whose first 35 bytes sum to
1889 and whose bytes 35-39 are the digits 18895 has four digits at 35-38
reading 1889, equal to the sum, yet the checksum bit is set, because atoi
keeps parsing past byte 38; this refutes the claim for frames whose byte 39
is also a digit. -/
theorem checksum_bit_parses_past_byte38 :
    digitByte (bufOfList exFrameLong 35) ∧
    digitByte (bufOfList exFrameLong 36) ∧
    digitByte (bufOfList exFrameLong 37) ∧
    digitByte (bufOfList exFrameLong 38) ∧
    ¬(((validate (bufOfList exFrameLong) 41).testBit 13 = true) ↔
        ((sum35 (bufOfList exFrameLong) : Int) ≠
          val4 (bufOfList exFrameLong))) := by decide

/-- Claim C6 (amended): when bytes 35-38 are digits and byte 39 is not (so
the atoi conversion stops after byte 38), the checksum bit is set iff the
sum of bytes 0-34 differs from the four-digit value; and whenever the
four-digit rule fails the checksum bit is set regardless of the sum. -/
theorem checksum_bit_iff_sum_mismatch :
    (∀ (d : Nat → Nat) (len : Nat),
        digitByte (d 35) → digitByte (d 36) → digitByte (d 37) →
        digitByte (d 38) → ¬ digitByte (d 39) →
        ((validate d len).testBit 13 = true ↔
          (sum35 d : Int) ≠ val4 d)) ∧
    (∀ (d : Nat → Nat) (len : Nat),
        ¬(digitByte (d 35) ∧ digitByte (d 36) ∧ digitByte (d 37) ∧
            digitByte (d 38)) →
        (validate d len).testBit 13 = true) := by
  constructor
  · intro d len h35 h36 h37 h38 h39
    have h12 : ¬ (structErr d len).testBit 12 = true := by
      rw [structErr_testBit_twelve]
      push_neg
      exact ⟨h35, h36, h37, h38⟩
    have hand : structErr d len &&& 4096 = 0 := by
      by_contra hne
      exact h12 ((and_four096_ne_zero _).1 hne)
    have hatoi := cAtoi_four_digits d h35 h36 h37 h38 h39
    simp only [validate, hand, hatoi]
    by_cases hsum : (sum35 d : Int) ≠ val4 d
    · simp [hsum, Nat.testBit_lor, structErr_testBit_thirteen, tb8192_13]
    · simp [hsum, structErr_testBit_thirteen]
  · intro d len h
    have h12 : (structErr d len).testBit 12 = true := by
      rw [structErr_testBit_twelve]
      tauto
    have hand : structErr d len &&& 4096 ≠ 0 := (and_four096_ne_zero _).2 h12
    simp [validate, hand, Nat.testBit_lor, structErr_testBit_thirteen,
      tb8192_13]

theorem checksum_bit_iff_sum_mismatch_witness :
    (digitByte (bufOfList exFrame 35) ∧ digitByte (bufOfList exFrame 36) ∧
      digitByte (bufOfList exFrame 37) ∧ digitByte (bufOfList exFrame 38) ∧
      ¬ digitByte (bufOfList exFrame 39) ∧
      ((validate (bufOfList exFrame) 40).testBit 13 = true ↔
        (sum35 (bufOfList exFrame) : Int) ≠ val4 (bufOfList exFrame))) ∧
    (¬(digitByte (bufOfList exFrameBadCk 35) ∧
        digitByte (bufOfList exFrameBadCk 36) ∧
        digitByte (bufOfList exFrameBadCk 37) ∧
        digitByte (bufOfList exFrameBadCk 38)) ∧
      (validate (bufOfList exFrameBadCk) 40).testBit 13 = true) :=
  ⟨⟨by decide, by decide, by decide, by decide, by decide,
      checksum_bit_iff_sum_mismatch.1 (bufOfList exFrame) 40
        (by decide) (by decide) (by decide) (by decide) (by decide)⟩,
    ⟨by decide,
      checksum_bit_iff_sum_mismatch.2 (bufOfList exFrameBadCk) 40 (by decide)⟩⟩

/-- Claim C7 (confirmed): a close can only happen while folding an accepted
sample, which has already incremented the count, so every emission divides
by a positive count; and the state after an emission has count, all running
sums and all maxima reset to zero. -/
theorem close_has_positive_count_and_resets (s : AccState) (m : Measurement)
    (now interval : Nat)
    (h : (accept s m now interval).2.isSome = true) :
    0 < (foldMeas s m).count ∧
    (accept s m now interval).1.count = 0 ∧
    (accept s m now interval).1.accTemp = 0 ∧
    (accept s m now interval).1.accDawn = 0 ∧
    (accept s m now interval).1.accSunE = 0 ∧
    (accept s m now interval).1.accSunW = 0 ∧
    (accept s m now interval).1.accSunS = 0 ∧
    (accept s m now interval).1.maxWind = 0 ∧
    (accept s m now interval).1.maxRain = 0 ∧
    (accept s m now interval).1.maxObsc = 0 := by
  by_cases hc : ((now % interval : Nat) : Int) < s.oldEpoch
  · refine ⟨by simp [foldMeas], ?_⟩
    simp only [accept]
    rw [if_pos hc]
    simp [resetAgg, foldMeas]
  · exfalso
    simp only [accept] at h
    rw [if_neg hc] at h
    simp at h

theorem close_has_positive_count_and_resets_witness :
    (accept sClose mTest 21 10).2.isSome = true ∧
    (0 < (foldMeas sClose mTest).count ∧
      (accept sClose mTest 21 10).1.count = 0 ∧
      (accept sClose mTest 21 10).1.accTemp = 0 ∧
      (accept sClose mTest 21 10).1.accDawn = 0 ∧
      (accept sClose mTest 21 10).1.accSunE = 0 ∧
      (accept sClose mTest 21 10).1.accSunW = 0 ∧
      (accept sClose mTest 21 10).1.accSunS = 0 ∧
      (accept sClose mTest 21 10).1.maxWind = 0 ∧
      (accept sClose mTest 21 10).1.maxRain = 0 ∧
      (accept sClose mTest 21 10).1.maxObsc = 0) :=
  ⟨by decide, close_has_positive_count_and_resets sClose mTest 21 10
      (by decide)⟩

/-- Claim C8 (confirmed): a frame whose validation mask is nonzero produces
no measurement, no snapshot, no record, leaves every accumulator component
unchanged, and is reported as a diagnostic carrying the mask and the raw
bytes. -/
theorem invalid_frame_leaves_state_unchanged (s : AccState) (d : Nat → Nat)
    (len now interval : Nat) (h : validate d len ≠ 0) :
    processFrame s d len now interval =
      { state := s, snapshot := none, record := none,
        diag := some (validate d len, (List.range len).map d) } := by
  simp [processFrame, h]

theorem invalid_frame_leaves_state_unchanged_witness :
    validate (bufOfList exFrameX) 40 ≠ 0 ∧
    processFrame initState (bufOfList exFrameX) 40 5 60 =
      { state := initState, snapshot := none, record := none,
        diag := some (validate (bufOfList exFrameX) 40,
          (List.range 40).map (bufOfList exFrameX)) } :=
  ⟨by decide,
    invalid_frame_leaves_state_unchanged initState (bufOfList exFrameX)
      40 5 60 (by decide)⟩

/-- Claim C9 (confirmed): on every frame that passes validation the decoded
wind and temperature are exactly the textual field value in tenths (the
parse, multiply by ten and truncate pipeline loses nothing on validated
fields), and in particular the example frame decodes wind 01.2 to 12 and
temperature +07.6 to 76. -/
theorem decode_tenths_exact :
    (∀ d : Nat → Nat, validate d 40 = 0 →
        (decode d).wind =
          100 * dig (d 16) + 10 * dig (d 17) + dig (d 19) ∧
        (decode d).temp =
          (if d 1 = 45 then (-1 : Int) else 1) *
            ((100 * dig (d 2) + 10 * dig (d 3) + dig (d 5) : Nat) : Int)) ∧
    (decode (bufOfList exFrame)).wind = 12 ∧
    (decode (bufOfList exFrame)).temp = 76 := by
  refine ⟨?_, by decide, by decide⟩
  intro d hv
  have hs := validate_zero_structErr d 40 hv
  have h3 : ¬ (structErr d 40).testBit 3 = true := by
    rw [hs]
    simp [Nat.zero_testBit]
  have h9 : ¬ (structErr d 40).testBit 9 = true := by
    rw [hs]
    simp [Nat.zero_testBit]
  rw [structErr_testBit_three] at h3
  rw [structErr_testBit_nine] at h9
  push_neg at h3 h9
  obtain ⟨hd2, hd3, _, hd5⟩ := h3
  obtain ⟨hd16, hd17, _, hd19⟩ := h9
  constructor
  · simp only [decode]
    apply atofT10_exact
    obtain ⟨a1, a2⟩ := hd16
    obtain ⟨b1, b2⟩ := hd17
    obtain ⟨c1, c2⟩ := hd19
    unfold dig
    omega
  · simp only [decode]
    congr 1
    norm_cast
    apply atofT10_exact
    obtain ⟨a1, a2⟩ := hd2
    obtain ⟨b1, b2⟩ := hd3
    obtain ⟨c1, c2⟩ := hd5
    unfold dig
    omega

theorem decode_tenths_exact_witness :
    validate (bufOfList exFrame) 40 = 0 ∧
    ((decode (bufOfList exFrame)).wind =
        100 * dig (bufOfList exFrame 16) + 10 * dig (bufOfList exFrame 17) +
          dig (bufOfList exFrame 19) ∧
      (decode (bufOfList exFrame)).temp =
        (if bufOfList exFrame 1 = 45 then (-1 : Int) else 1) *
          ((100 * dig (bufOfList exFrame 2) + 10 * dig (bufOfList exFrame 3) +
            dig (bufOfList exFrame 5) : Nat) : Int)) :=
  ⟨by decide, decode_tenths_exact.1 (bufOfList exFrame) (by decide)⟩

/-- Claim C10 (confirmed): the sample whose arrival triggers a close has
already been folded when the close is detected: the emitted record is built
from the post-fold accumulator, whose count is the old count plus one, and
the new window starts with count, sums and maxima all zero. -/
theorem close_includes_trigger_sample (s : AccState) (m : Measurement)
    (now interval : Nat) (r : AveragedRecord)
    (h : (accept s m now interval).2 = some r) :
    r = mkRecord (foldMeas s m) ∧
    (foldMeas s m).count = s.count + 1 ∧
    (accept s m now interval).1.count = 0 ∧
    (accept s m now interval).1.accTemp = 0 ∧
    (accept s m now interval).1.accDawn = 0 ∧
    (accept s m now interval).1.accSunE = 0 ∧
    (accept s m now interval).1.accSunW = 0 ∧
    (accept s m now interval).1.accSunS = 0 ∧
    (accept s m now interval).1.maxWind = 0 ∧
    (accept s m now interval).1.maxRain = 0 ∧
    (accept s m now interval).1.maxObsc = 0 := by
  by_cases hc : ((now % interval : Nat) : Int) < s.oldEpoch
  · have hr : r = mkRecord (foldMeas s m) := by
      have h2 := h
      simp only [accept] at h2
      rw [if_pos hc] at h2
      simp only [Option.some.injEq] at h2
      exact h2.symm
    refine ⟨hr, by simp [foldMeas], ?_⟩
    simp only [accept]
    rw [if_pos hc]
    simp [resetAgg, foldMeas]
  · exfalso
    simp only [accept] at h
    rw [if_neg hc] at h
    simp at h

theorem close_includes_trigger_sample_witness :
    (accept sClose mTest 21 10).2 = some (mkRecord (foldMeas sClose mTest)) ∧
    (mkRecord (foldMeas sClose mTest) = mkRecord (foldMeas sClose mTest) ∧
      (foldMeas sClose mTest).count = sClose.count + 1 ∧
      (accept sClose mTest 21 10).1.count = 0 ∧
      (accept sClose mTest 21 10).1.accTemp = 0 ∧
      (accept sClose mTest 21 10).1.accDawn = 0 ∧
      (accept sClose mTest 21 10).1.accSunE = 0 ∧
      (accept sClose mTest 21 10).1.accSunW = 0 ∧
      (accept sClose mTest 21 10).1.accSunS = 0 ∧
      (accept sClose mTest 21 10).1.maxWind = 0 ∧
      (accept sClose mTest 21 10).1.maxRain = 0 ∧
      (accept sClose mTest 21 10).1.maxObsc = 0) :=
  ⟨by decide, close_includes_trigger_sample sClose mTest 21 10
      (mkRecord (foldMeas sClose mTest)) (by decide)⟩

end EltakoMS
